import Mathlib

/-!
Shallow embedding of the record-store backend (Go, `backend/` package) and
proofs about its catalog-aggregation and cart layers.

The embedding follows the source:
* `backend/db/db.go` — the SQLite schema (`createTables`): tables become lists
  of row structures inside `DBState`; declared `ON DELETE CASCADE` /
  `ON DELETE SET NULL` clauses become the corresponding state updates.
* `backend/models/models.go` — the row / response structures.
* `backend/handlers/auth.go` — the handlers: each becomes a function from a
  `DBState` (plus the decoded request) to an `Except ApiError` result,
  mirroring the handler's validation order, queries and assembly loops.

Go `int` columns are modelled as `Int`; SQL `NULL`-able columns
(`sql.NullInt64` / `sql.NullString`) as `Option`.  The two `REAL` price
columns are carried opaquely (no handler computes with them); they are
modelled as `Int`-valued fields so that states stay decidable.
-/

namespace RecordStore

/-- Row of the `records` table (db.go lines 72-83) / `models.Record` without
the resolved `Tracks` field. -/
structure RecordRow where
  id : Int
  title : String
  label : String
  wholesaleAddress : String
  wholesalePrice : Int
  retailPrice : Int
  releaseDate : String
  soldLastYear : Int
  soldCurrentYear : Int
  stock : Int
deriving DecidableEq, Repr

/-- Row of the `tracks` table (db.go lines 61-71): `musician_id` and
`ensemble_id` are both nullable; the schema `CHECK` demands exactly one set. -/
structure TrackRow where
  id : Int
  name : String
  duration : Int
  musicianId : Option Int
  ensembleId : Option Int
deriving DecidableEq, Repr

/-- Row of the `musicians` table (db.go lines 53-60). -/
structure MusicianRow where
  id : Int
  firstName : String
  lastName : String
  role : String
  ensembleId : Option Int
deriving DecidableEq, Repr

/-- Row of the `ensembles` table (db.go lines 48-52). -/
structure EnsembleRow where
  id : Int
  name : String
  type : String
deriving DecidableEq, Repr

/-- Row of the `cart_items` table (db.go lines 91-98), primary key
`(user_id, record_id)`. -/
structure CartRow where
  userId : Int
  recordId : Int
  quantity : Int
deriving DecidableEq, Repr

/-- The database state: the seven tables of `createTables` that the embedded
handlers touch (`users` is consumed only through the authenticated user id, so
it is not carried), plus the `AUTOINCREMENT` counters used by the admin
inserts. -/
structure DBState where
  ensembles : List EnsembleRow
  musicians : List MusicianRow
  tracks : List TrackRow
  records : List RecordRow
  recordTracks : List (Int × Int)
  cartItems : List CartRow
  nextEnsembleId : Int
  nextMusicianId : Int
  nextTrackId : Int
  nextRecordId : Int
deriving DecidableEq, Repr

/-- State right after `createTables` on a fresh database: every table empty,
`AUTOINCREMENT` counters at 1. -/
def initialState : DBState :=
  { ensembles := [], musicians := [], tracks := [], records := []
    recordTracks := [], cartItems := []
    nextEnsembleId := 1, nextMusicianId := 1, nextTrackId := 1, nextRecordId := 1 }

/-- Classification of the handler error responses (section 7 of the spec):
400 validation, 404 not found, 409 conflict, 500 storage. -/
inductive ApiError where
  | validation
  | notFound
  | conflict
  | storage
deriving DecidableEq, Repr

/-- `models.Track`: a track as it appears in a JSON response, with the
display-name fields filled in by the aggregation scan loop. -/
structure Track where
  id : Int
  name : String
  duration : Int
  musicianId : Option Int
  ensembleId : Option Int
  musicianName : String
  ensembleName : String
deriving DecidableEq, Repr

/-- `models.Record`: a record as it appears in a JSON response.  The Go
`Tracks []models.Track` slice is `nil` until the handler assigns it, so it is
modelled as an `Option`: `none` is the nil slice, `some l` an assigned list. -/
structure RecordOut extends RecordRow where
  tracks : Option (List Track)
deriving DecidableEq, Repr

/-- `models.CartItem`: one cart position in a JSON response; `Record` is a
nullable pointer. -/
structure CartItemOut where
  userId : Int
  recordId : Int
  quantity : Int
  record : Option RecordOut
deriving DecidableEq, Repr

deriving instance DecidableEq for Except

/-! ## Query helpers shared by the handlers -/

/-- `SELECT EXISTS(SELECT 1 FROM records WHERE id = ?)` (auth.go line 549). -/
def recordExists (st : DBState) (recordId : Int) : Bool :=
  st.records.any (fun r => r.id == recordId)

/-- `SELECT ... FROM records WHERE id = ?` returning at most one row
(auth.go line 848, where `sql.ErrNoRows` signals a missing record). -/
def findRecord (st : DBState) (recordId : Int) : Option RecordRow :=
  st.records.find? (fun r => r.id == recordId)

/-- Lookup of the unique `(user_id, record_id)` cart row. -/
def cartFind (cart : List CartRow) (userId recordId : Int) : Option CartRow :=
  cart.find? (fun c => c.userId == userId && c.recordId == recordId)

/-! ## Cart handlers (auth.go lines 520-910) -/

/-- `AddToCartHandler` (auth.go lines 521-572): validates the payload, checks
the record exists, then runs the single atomic upsert
`INSERT INTO cart_items ... ON CONFLICT (user_id, record_id) DO UPDATE SET
quantity = quantity + excluded.quantity`. -/
def addToCart (st : DBState) (userId recordId quantity : Int) :
    Except ApiError DBState :=
  if recordId ≤ 0 ∨ quantity ≤ 0 then .error .validation
  else if !recordExists st recordId then .error .notFound
  else if st.cartItems.any (fun c => c.userId == userId && c.recordId == recordId) then
    .ok { st with cartItems := st.cartItems.map (fun c =>
      if c.userId == userId && c.recordId == recordId then
        { c with quantity := c.quantity + quantity }
      else c) }
  else
    .ok { st with cartItems := st.cartItems ++ [⟨userId, recordId, quantity⟩] }

/-- `UpdateCartHandler` (auth.go lines 798-875): negative quantity is a
validation error; quantity 0 deletes the row (`rowsAffected == 0` maps to
404); positive quantity re-validates the record through the stock query and
overwrites the stored quantity (`rowsAffected == 0` again maps to 404). -/
def updateCart (st : DBState) (userId recordId quantity : Int) :
    Except ApiError DBState :=
  if recordId ≤ 0 then .error .validation
  else if quantity < 0 then .error .validation
  else if quantity = 0 then
    let remaining := st.cartItems.filter
      (fun c => !(c.userId == userId && c.recordId == recordId))
    if remaining.length == st.cartItems.length then .error .notFound
    else .ok { st with cartItems := remaining }
  else
    match findRecord st recordId with
    | none => .error .notFound
    | some _ =>
      if st.cartItems.any (fun c => c.userId == userId && c.recordId == recordId) then
        .ok { st with cartItems := st.cartItems.map (fun c =>
          if c.userId == userId && c.recordId == recordId then
            { c with quantity := quantity }
          else c) }
      else .error .notFound

/-- `RemoveFromCartHandler` (auth.go lines 878-910): unconditional `DELETE`,
with `rowsAffected == 0` mapped to 404. -/
def removeFromCart (st : DBState) (userId recordId : Int) :
    Except ApiError DBState :=
  if recordId ≤ 0 then .error .validation
  else
    let remaining := st.cartItems.filter
      (fun c => !(c.userId == userId && c.recordId == recordId))
    if remaining.length == st.cartItems.length then .error .notFound
    else .ok { st with cartItems := remaining }

/-! ## Catalog aggregation (auth.go lines 335-516, reused at 575-795)

The handlers batch their queries: all `(record_id, track_id)` links for the
fetched record ids, then all referenced tracks joined with their owners.
The Go scan loops over `*sql.Rows` become list functions; the Go maps keyed
by id become lookup functions. -/

/-- Go `strings.TrimSpace`, as used on the concatenated musician name:
drops leading and trailing whitespace (modelled over the character list so
that concrete instances evaluate). -/
def trimSpace (s : String) : String :=
  ⟨((s.data.dropWhile Char.isWhitespace).reverse.dropWhile Char.isWhitespace).reverse⟩

/-- Go `strings.Repeat` for the non-negative repeat counts used by the
placeholder builders. -/
def stringRepeat (s : String) : Nat → String
  | 0 => ""
  | n + 1 => s ++ stringRepeat s n

/-- One result row of the batched tracks query
`SELECT t.id, t.name, t.duration, t.musician_id, t.ensemble_id,
m.first_name, m.last_name, e.name FROM tracks t LEFT JOIN musicians m ...
LEFT JOIN ensembles e ...`: the joined owner columns are `NULL` when the owner
row is absent (`sql.NullInt64` / `sql.NullString` with `Valid = false`). -/
structure JoinedTrackRow where
  id : Int
  name : String
  duration : Int
  musicianId : Option Int
  ensembleId : Option Int
  musicianFirstName : Option String
  musicianLastName : Option String
  ensembleName : Option String
deriving DecidableEq, Repr

/-- The `LEFT JOIN` semantics of that query for a single `tracks` row. -/
def joinTrackRow (st : DBState) (t : TrackRow) : JoinedTrackRow :=
  let m := t.musicianId.bind (fun mid => st.musicians.find? (fun x => x.id == mid))
  let e := t.ensembleId.bind (fun eid => st.ensembles.find? (fun x => x.id == eid))
  { id := t.id, name := t.name, duration := t.duration
    musicianId := t.musicianId, ensembleId := t.ensembleId
    musicianFirstName := m.map (·.firstName)
    musicianLastName := m.map (·.lastName)
    ensembleName := e.map (·.name) }

/-- Body of the track scan loop (auth.go lines 451-491): fills the display
names.  With a musician reference, the name is
`strings.TrimSpace(first + " " + last)` when at least one of the joined name
columns is valid, else the `"Unknown Musician"` fallback; an invalid
`sql.NullString` contributes its zero value `""` to the concatenation.
Symmetrically for the ensemble name with the `"Unknown Ensemble"` fallback. -/
def scanTrack (row : JoinedTrackRow) : Track :=
  let base : Track :=
    { id := row.id, name := row.name, duration := row.duration
      musicianId := none, ensembleId := none
      musicianName := "", ensembleName := "" }
  let withM :=
    match row.musicianId with
    | some mid =>
      { base with
        musicianId := some mid
        musicianName :=
          if row.musicianFirstName.isSome || row.musicianLastName.isSome then
            trimSpace (row.musicianFirstName.getD "" ++ " " ++ row.musicianLastName.getD "")
          else "Unknown Musician" }
    | none => base
  match row.ensembleId with
  | some eid =>
    { withM with
      ensembleId := some eid
      ensembleName :=
        match row.ensembleName with
        | some s => s
        | none => "Unknown Ensemble" }
  | none => withM

/-- `SELECT record_id, track_id FROM record_tracks WHERE record_id IN (...)`
(auth.go line 383): the association rows whose record id is among the given
ids, in stored order. -/
def linksFor (st : DBState) (recordIDs : List Int) : List (Int × Int) :=
  st.recordTracks.filter (fun p => recordIDs.contains p.1)

/-- The scan-loop dedup idiom `if _, exists := set[id]; !exists { ids =
append(ids, id) ... }`: keeps the first occurrence of each id. -/
def dedupKeepFirst (xs : List Int) : List Int :=
  xs.foldl (fun acc x => if acc.contains x then acc else acc ++ [x]) []

/-- The distinct track ids referenced by the fetched links, in first-seen
order (auth.go lines 397-412). -/
def collectTrackIDs (links : List (Int × Int)) : List Int :=
  dedupKeepFirst (links.map (·.2))

/-- The per-record slice of `recordTrackLinks` (the Go map built at auth.go
line 407): the track ids linked to `recordId`, in link order; an id absent
from the map gives the empty slice. -/
def linkedTrackIds (links : List (Int × Int)) (recordId : Int) : List Int :=
  (links.filter (fun p => p.1 == recordId)).map (·.2)

/-- The Go `tracksMap` (auth.go line 450): id-keyed lookup over the scanned
track rows. -/
def tracksMapOf (rows : List JoinedTrackRow) : Int → Option Track :=
  fun tid => (rows.find? (fun r => r.id == tid)).map scanTrack

/-- Step 4 of the aggregation (auth.go lines 498-512): walk the fetched
records in order, give each the empty track list, then append every linked
track found in the map; a linked id missing from the map is logged and
skipped. -/
def attachTracks (records : List RecordRow) (links : List (Int × Int))
    (tmap : Int → Option Track) : List RecordOut :=
  records.map (fun r =>
    { toRecordRow := r, tracks := some ((linkedTrackIds links r.id).filterMap tmap) })

/-! ### The batched-query strings

The well-formed pattern (auth.go line 383 and elsewhere) builds
`"(?" + strings.Repeat(",?", n-1) + ")"` so that the placeholder list matches
the argument count.  The four multi-line track queries (auth.go lines
428-435, 707-714, 1575-1582) are Go raw string literals delimited by
backquotes, so the text `" + strings.Repeat(",?", len(trackIDs)-1) + "` is
part of the SQL sent to the engine rather than Go concatenation. -/

/-- The intended `IN`-clause for `n` bound arguments. -/
def inClause (n : Nat) : String := "(?" ++ stringRepeat ",?" (n - 1) ++ ")"

/-- The `IN`-clause actually sent by `GetRecordsHandler` step 3 (auth.go line
435), exactly as it stands inside the raw string literal. -/
def brokenTracksInClause : String :=
  "(?\" + strings.Repeat(\",?\", len(trackIDs)-1) + \")"

/-- The `IN`-clause actually sent by `GetCartHandler` step 4 (auth.go line
714). -/
def brokenCartTracksInClause : String :=
  "(?\" + strings.Repeat(\",?\", len(cartTrackIDs)-1) + \")"

/-- Model of preparing and executing the batched tracks-with-owners query:
the engine accepts the statement iff its `IN`-clause is the well-formed
placeholder list for the argument count, and then returns the joined rows for
the requested track ids; any other clause fails to prepare (the raw-literal
clause is an SQL syntax error, and its placeholder count cannot match the
bound arguments), which the handler surfaces as a storage error. -/
def runTracksQuery (st : DBState) (clause : String) (trackIDs : List Int) :
    Except ApiError (List JoinedTrackRow) :=
  if clause = inClause trackIDs.length then
    .ok ((st.tracks.filter (fun t => trackIDs.contains t.id)).map (joinTrackRow st))
  else .error .storage

/-- `GetRecordsHandler` (auth.go lines 335-516): fetch all records, batch the
links, short-circuit with empty track lists when no track is linked, fetch
the tracks through the (raw-literal) step-3 query, then assemble. -/
def getRecords (st : DBState) : Except ApiError (List RecordOut) :=
  let records := st.records
  if records.length == 0 then .ok []
  else
    let recordIDs := records.map (·.id)
    let links := linksFor st recordIDs
    let trackIDs := collectTrackIDs links
    if trackIDs.length == 0 then
      .ok (records.map (fun r => { toRecordRow := r, tracks := some [] }))
    else
      match runTracksQuery st brokenTracksInClause trackIDs with
      | .error e => .error e
      | .ok rows => .ok (attachTracks records links (tracksMapOf rows))

/-- The Go `recordsMap` of `GetCartHandler` (auth.go line 636). -/
def recordsMapOf (rows : List RecordRow) : Int → Option RecordRow :=
  fun rid => rows.find? (fun r => r.id == rid)

/-- Step 5 of `GetCartHandler` (auth.go lines 770-792): each cart item keeps
its position; an item whose record is missing from the map gets a nil
`Record` pointer and a logged warning; otherwise the record is attached with
its assembled track list. -/
def attachCart (items : List CartItemOut) (rmap : Int → Option RecordRow)
    (links : List (Int × Int)) (tmap : Int → Option Track) : List CartItemOut :=
  items.map (fun it =>
    match rmap it.recordId with
    | none => { it with record := none }
    | some r =>
      let out : RecordOut :=
        { toRecordRow := r
          tracks := some ((linkedTrackIds links r.id).filterMap tmap) }
      { it with record := some out })

/-- `GetCartHandler` (auth.go lines 575-795): scan the user's cart rows (the
`Record` pointer starts out nil), early-return on an empty cart or when no
referenced record was fetched, batch the links, and run step 4 through the
(raw-literal) cart tracks query before assembling step 5. -/
def getCart (st : DBState) (userId : Int) : Except ApiError (List CartItemOut) :=
  let cartRows := st.cartItems.filter (fun c => c.userId == userId)
  let items := cartRows.map
    (fun c => ({ userId := c.userId, recordId := c.recordId
                 quantity := c.quantity, record := none } : CartItemOut))
  if items.length == 0 then .ok items
  else
    let recordIDs := dedupKeepFirst (cartRows.map (·.recordId))
    let fetched := st.records.filter (fun r => recordIDs.contains r.id)
    let fetchedRecordIDs := dedupKeepFirst (fetched.map (·.id))
    if fetchedRecordIDs.length == 0 then .ok items
    else
      let links := linksFor st fetchedRecordIDs
      let cartTrackIDs := collectTrackIDs links
      if cartTrackIDs.length == 0 then
        .ok (attachCart items (recordsMapOf fetched) links (tracksMapOf []))
      else
        match runTracksQuery st brokenCartTracksInClause cartTrackIDs with
        | .error e => .error e
        | .ok rows =>
          .ok (attachCart items (recordsMapOf fetched) links (tracksMapOf rows))

/-! ## Admin writes (auth.go lines 915-1070 and 1168-1266)

`AddMusicianHandler`, `AddEnsembleHandler` and `AddRecordHandler` run a
`db.Begin()` transaction:
every error path returns before `tx.Commit()` (the deferred function rolls the
transaction back when the named `err` is non-nil, and an uncommitted
transaction never becomes durable), so the durable state is the transaction
state only when the handler reached a successful commit.

Statement failures beyond the deterministic ones (the `UNIQUE` conflict on
`ensembles.name`) come from the storage engine; they are modelled by an
oracle `failAt : Nat → Bool` saying whether the k-th statement executed
inside the transaction returns an engine error. -/

/-- `models.AddTrackRequest`. -/
structure AddTrackRequest where
  name : String
  duration : Int
deriving DecidableEq, Repr

/-- `models.AddMusicianRequest`. -/
structure AddMusicianRequest where
  firstName : String
  lastName : String
  role : String
  ensembleId : Option Int
  tracks : List AddTrackRequest
deriving DecidableEq, Repr

/-- `models.AddEnsembleRequest`. -/
structure AddEnsembleRequest where
  name : String
  type : String
  tracks : List AddTrackRequest
deriving DecidableEq, Repr

/-- `models.AddRecordRequest`. -/
structure AddRecordRequest where
  title : String
  label : String
  wholesaleAddress : String
  wholesalePrice : Int
  retailPrice : Int
  releaseDate : String
  stock : Int
  trackIDs : List Int
deriving DecidableEq, Repr

/-- Outcome of running a transactional handler body: the transaction-local
state, whether `tx.Commit()` succeeded, and the response (the created id on
success). -/
structure TxOutcome where
  txState : DBState
  committed : Bool
  response : Except ApiError Int
deriving Repr

/-- Durable state after the handler returns: only a committed transaction
changes the database (rollback — explicit or by abandoning the uncommitted
transaction — restores the base state). -/
def txFinalState (base : DBState) (o : TxOutcome) : DBState :=
  if o.committed then o.txState else base

/-- The owned-track insert loop shared by the two handlers (auth.go lines
965-978 with `(?, ?, ?, NULL)`, lines 1046-1058 with `(?, ?, NULL, ?)`):
tracks with empty name or non-positive duration are logged and skipped
without executing a statement; each executed insert is statement `k` of the
transaction and may fail. -/
def insertOwnedTracks (failAt : Nat → Bool) (mid eid : Option Int) :
    List AddTrackRequest → Nat → DBState → Except ApiError (DBState × Nat)
  | [], k, st => .ok (st, k)
  | t :: ts, k, st =>
    if t.name == "" || t.duration ≤ 0 then
      insertOwnedTracks failAt mid eid ts k st
    else if failAt k then .error .storage
    else
      insertOwnedTracks failAt mid eid ts (k + 1)
        { st with
          tracks := st.tracks ++ [⟨st.nextTrackId, t.name, t.duration, mid, eid⟩]
          nextTrackId := st.nextTrackId + 1 }

/-- `AddMusicianHandler` (auth.go lines 915-989): validation, `BEGIN`, insert
the musician (statement 0), insert the personal tracks with
`musician_id = id, ensemble_id = NULL`, then `COMMIT` (which may itself
fail). -/
def addMusician (failAt : Nat → Bool) (st : DBState) (req : AddMusicianRequest) :
    TxOutcome :=
  if req.firstName == "" || req.lastName == "" then ⟨st, false, .error .validation⟩
  else if failAt 0 then ⟨st, false, .error .storage⟩
  else
    let mid := st.nextMusicianId
    let st1 :=
      { st with
        musicians := st.musicians ++ [⟨mid, req.firstName, req.lastName, req.role, req.ensembleId⟩]
        nextMusicianId := mid + 1 }
    match insertOwnedTracks failAt (some mid) none req.tracks 1 st1 with
    | .error e => ⟨st1, false, .error e⟩
    | .ok (st2, k) =>
      if failAt k then ⟨st2, false, .error .storage⟩
      else ⟨st2, true, .ok mid⟩

/-- `AddEnsembleHandler` (auth.go lines 992-1070): validation, `BEGIN`,
insert the ensemble (statement 0, where a duplicate name raises the `UNIQUE`
constraint and maps to a conflict response), insert the ensemble tracks with
`musician_id = NULL, ensemble_id = id`, then `COMMIT`. -/
def addEnsemble (failAt : Nat → Bool) (st : DBState) (req : AddEnsembleRequest) :
    TxOutcome :=
  if req.name == "" then ⟨st, false, .error .validation⟩
  else if failAt 0 then ⟨st, false, .error .storage⟩
  else if st.ensembles.any (fun e => e.name == req.name) then
    ⟨st, false, .error .conflict⟩
  else
    let eid := st.nextEnsembleId
    let st1 :=
      { st with
        ensembles := st.ensembles ++ [⟨eid, req.name, req.type⟩]
        nextEnsembleId := eid + 1 }
    match insertOwnedTracks failAt none (some eid) req.tracks 1 st1 with
    | .error e => ⟨st1, false, .error e⟩
    | .ok (st2, k) =>
      if failAt k then ⟨st2, false, .error .storage⟩
      else ⟨st2, true, .ok eid⟩

/-- The record-track link loop of `AddRecordHandler` (auth.go lines
1220-1254): each requested track id is first checked for existence through
the base connection (`db.QueryRow`, outside the transaction) and skipped
with a warning when absent; the prepared link insert is statement `k` of the
transaction, a `UNIQUE` conflict (the same track id twice in the request) is
logged and skipped, and any other engine failure aborts the request. -/
def insertRecordTrackLinks (failAt : Nat → Bool) (base : DBState) (recordId : Int) :
    List Int → Nat → DBState → Except ApiError (DBState × Nat)
  | [], k, st => .ok (st, k)
  | tid :: tids, k, st =>
    if !(base.tracks.any (fun t => t.id == tid)) then
      insertRecordTrackLinks failAt base recordId tids k st
    else if failAt k then .error .storage
    else if st.recordTracks.any (fun p => p.1 == recordId && p.2 == tid) then
      insertRecordTrackLinks failAt base recordId tids (k + 1) st
    else
      insertRecordTrackLinks failAt base recordId tids (k + 1)
        { st with recordTracks := st.recordTracks ++ [(recordId, tid)] }

/-- `AddRecordHandler` (auth.go lines 1168-1266): validation (empty title,
negative stock), `BEGIN`, insert the record (statement 0) with zeroed sales
counters, link the requested existing tracks through the prepared insert,
then `COMMIT` (which may itself fail). -/
def addRecord (failAt : Nat → Bool) (st : DBState) (req : AddRecordRequest) :
    TxOutcome :=
  if req.title == "" then ⟨st, false, .error .validation⟩
  else if req.stock < 0 then ⟨st, false, .error .validation⟩
  else if failAt 0 then ⟨st, false, .error .storage⟩
  else
    let rid := st.nextRecordId
    let st1 :=
      { st with
        records := st.records ++ [⟨rid, req.title, req.label, req.wholesaleAddress,
          req.wholesalePrice, req.retailPrice, req.releaseDate, 0, 0, req.stock⟩]
        nextRecordId := rid + 1 }
    match insertRecordTrackLinks failAt st rid req.trackIDs 1 st1 with
    | .error e => ⟨st1, false, .error e⟩
    | .ok (st2, k) =>
      if failAt k then ⟨st2, false, .error .storage⟩
      else ⟨st2, true, .ok rid⟩

/-! ## Deletes and their declared cascades (db.go lines 33-98, auth.go 1322-1349) -/

/-- `DeleteRecordHandler` (auth.go lines 1322-1349): `DELETE FROM records
WHERE id = ?` with `rowsAffected == 0` mapped to 404; the schema's
`ON DELETE CASCADE` clauses on `record_tracks.record_id` and
`cart_items.record_id` (db.go lines 84-98) remove the association and cart
rows of the deleted record, and nothing else. -/
def deleteRecord (st : DBState) (recordId : Int) : Except ApiError DBState :=
  if recordId ≤ 0 then .error .validation
  else
    let remaining := st.records.filter (fun r => !(r.id == recordId))
    if remaining.length == st.records.length then .error .notFound
    else
      .ok { st with
            records := remaining
            recordTracks := st.recordTracks.filter (fun p => !(p.1 == recordId))
            cartItems := st.cartItems.filter (fun c => !(c.recordId == recordId)) }

/-- Engine-level deletion of a `musicians` row under the declared schema
(db.go lines 53-71): `tracks.musician_id` is `ON DELETE CASCADE`, so the
musician's personal tracks are deleted, and `record_tracks.track_id`
cascades in turn, removing the links to those tracks. -/
def deleteMusicianRow (st : DBState) (mid : Int) : DBState :=
  let deadTracks := (st.tracks.filter (fun t => t.musicianId == some mid)).map (·.id)
  { st with
    musicians := st.musicians.filter (fun m => !(m.id == mid))
    tracks := st.tracks.filter (fun t => !(t.musicianId == some mid))
    recordTracks := st.recordTracks.filter (fun p => !(deadTracks.contains p.2)) }

/-- Engine-level deletion of an `ensembles` row under the declared schema
(db.go lines 48-71): `musicians.ensemble_id` is `ON DELETE SET NULL`,
`tracks.ensemble_id` is `ON DELETE CASCADE` (cascading further into
`record_tracks.track_id`). -/
def deleteEnsembleRow (st : DBState) (eid : Int) : DBState :=
  let deadTracks := (st.tracks.filter (fun t => t.ensembleId == some eid)).map (·.id)
  { st with
    ensembles := st.ensembles.filter (fun e => !(e.id == eid))
    musicians := st.musicians.map (fun m =>
      if m.ensembleId == some eid then { m with ensembleId := none } else m)
    tracks := st.tracks.filter (fun t => !(t.ensembleId == some eid))
    recordTracks := st.recordTracks.filter (fun p => !(deadTracks.contains p.2)) }

/-- Direct lookup of a track by id. -/
def trackLookup (st : DBState) (tid : Int) : Option TrackRow :=
  st.tracks.find? (fun t => t.id == tid)

/-- The standing exclusivity invariant declared by the schema `CHECK`
(db.go line 68): exactly one of the two owner references is non-null. -/
def trackOwnerXor (t : TrackRow) : Bool :=
  t.musicianId.isSome ^^ t.ensembleId.isSome

/-- All persisted tracks satisfy the ownership-exclusivity invariant. -/
def tracksXorInv (st : DBState) : Bool :=
  st.tracks.all trackOwnerXor

/-! ## Concrete sample data for the witnesses -/

/-- A concrete `records` row. -/
def sampleRecord : RecordRow :=
  { id := 1, title := "Live Set", label := "EMI", wholesaleAddress := ""
    wholesalePrice := 0, retailPrice := 0, releaseDate := "2024-01-01"
    soldLastYear := 0, soldCurrentYear := 0, stock := 0 }

/-- A state holding the single sample record and an empty cart. -/
def sampleState : DBState :=
  { initialState with records := [sampleRecord] }

/-! ## Helper lemmas -/

/-- A failed `find?` means the predicate fails on every element. -/
theorem all_false_of_find?_eq_none {p : CartRow → Bool} {l : List CartRow}
    (h : l.find? p = none) : ∀ c ∈ l, p c = false := by
  intro c hc
  have := List.find?_eq_none.mp h c hc
  simpa using this

/-! ## C1 -/

/-- C1: for a user `u`, an existing record `r` and quantities `q1, q2 ≥ 1`,
with the `(u, r)` cart row initially absent, `Add(u,r,q1)` then `Add(u,r,q2)`
succeeds and leaves the row present with quantity `q1 + q2`, and the final
state is exactly the state produced by the single `Add(u,r,q1+q2)`: the
upsert accumulates instead of overwriting. -/
theorem addToCart_accumulates (st : DBState) (u r q1 q2 : Int)
    (hr : 0 < r) (h1 : 1 ≤ q1) (h2 : 1 ≤ q2)
    (hex : recordExists st r = true)
    (habs : cartFind st.cartItems u r = none) :
    ∃ st1 st2,
      addToCart st u r q1 = .ok st1 ∧
      addToCart st1 u r q2 = .ok st2 ∧
      addToCart st u r (q1 + q2) = .ok st2 ∧
      cartFind st2.cartItems u r = some ⟨u, r, q1 + q2⟩ := by
  have hall : ∀ c ∈ st.cartItems, (c.userId == u && c.recordId == r) = false :=
    all_false_of_find?_eq_none habs
  have hany : st.cartItems.any (fun c => c.userId == u && c.recordId == r) = false := by
    rw [List.any_eq_false]
    intro c hc
    simp [hall c hc]
  refine ⟨{ st with cartItems := st.cartItems ++ [⟨u, r, q1⟩] },
          { st with cartItems := st.cartItems ++ [⟨u, r, q1 + q2⟩] }, ?_, ?_, ?_, ?_⟩
  · rw [addToCart, if_neg (by omega), if_neg (by simp [hex]), if_neg (by simp [hany])]
  · rw [addToCart, if_neg (by omega), if_neg (by simp [recordExists] at hex ⊢; exact hex),
      if_pos (by simp)]
    have hmap : (st.cartItems ++ [(⟨u, r, q1⟩ : CartRow)]).map (fun c =>
        if c.userId == u && c.recordId == r then { c with quantity := c.quantity + q2 }
        else c) = st.cartItems ++ [⟨u, r, q1 + q2⟩] := by
      rw [List.map_append]
      congr 1
      · rw [show st.cartItems.map (fun c =>
            if c.userId == u && c.recordId == r then { c with quantity := c.quantity + q2 }
            else c) = st.cartItems.map id from
            List.map_congr_left (fun c hc => by simp [hall c hc]), List.map_id]
      · simp [add_assoc]
    simp only [hmap]
  · rw [addToCart, if_neg (by omega), if_neg (by simp [hex]), if_neg (by simp [hany])]
  · rw [cartFind, List.find?_append,
      show st.cartItems.find? (fun c => c.userId == u && c.recordId == r) = none from habs]
    simp

/-- Witness for C1: two adds of 2 then 3 on the sample state merge into
quantity 5, matching the single add of 5. -/
theorem addToCart_accumulates_witness :
    ∃ st1 st2,
      addToCart sampleState 7 1 2 = .ok st1 ∧
      addToCart st1 7 1 3 = .ok st2 ∧
      addToCart sampleState 7 1 (2 + 3) = .ok st2 ∧
      cartFind st2.cartItems 7 1 = some ⟨7, 1, 2 + 3⟩ :=
  addToCart_accumulates sampleState 7 1 2 3 (by decide) (by decide) (by decide)
    (by decide) (by decide)

/-! ## C4 -/

/-- C4: semantics of the cart `Set` operation.  With quantity 0 on a present
row the row is deleted; with quantity 0 on an absent row the operation is a
not-found error; with a positive quantity the record's existence is
re-validated (its absence is a not-found error), a present row gets its
quantity overwritten with `q` — not accumulated — and an absent row is a
not-found error with no row created. -/
theorem updateCart_set_semantics (st : DBState) (u r q : Int)
    (hr : 0 < r) (hq : 0 ≤ q) :
    (q = 0 → (cartFind st.cartItems u r).isSome = true →
      ∃ st', updateCart st u r q = .ok st' ∧
        st'.records = st.records ∧
        st'.cartItems =
          st.cartItems.filter (fun c => !(c.userId == u && c.recordId == r))) ∧
    (q = 0 → cartFind st.cartItems u r = none →
      updateCart st u r q = .error .notFound) ∧
    (0 < q → (cartFind st.cartItems u r).isSome = true → recordExists st r = true →
      ∃ st', updateCart st u r q = .ok st' ∧
        st'.records = st.records ∧
        st'.cartItems = st.cartItems.map (fun c =>
          if c.userId == u && c.recordId == r then { c with quantity := q } else c) ∧
        (∀ c ∈ st'.cartItems, (c.userId == u && c.recordId == r) = true →
          c.quantity = q) ∧
        (cartFind st'.cartItems u r).isSome = true) ∧
    (0 < q → cartFind st.cartItems u r = none → recordExists st r = true →
      updateCart st u r q = .error .notFound) ∧
    (0 < q → recordExists st r = false →
      updateCart st u r q = .error .notFound) := by
  have hfilterlen : (cartFind st.cartItems u r).isSome = true →
      (st.cartItems.filter (fun c => !(c.userId == u && c.recordId == r))).length ≠
        st.cartItems.length := by
    intro hsome
    obtain ⟨c, hc, hpc⟩ := List.find?_isSome.mp hsome
    have : (st.cartItems.filter (fun c => !(c.userId == u && c.recordId == r))).length <
        st.cartItems.length := by
      rw [List.length_filter_lt_length_iff_exists]
      exact ⟨c, hc, by simp [hpc]⟩
    omega
  have hfindrec : recordExists st r = true → ∃ rec, findRecord st r = some rec := by
    intro hex
    apply Option.isSome_iff_exists.mp
    rw [findRecord, List.find?_isSome]
    exact List.any_eq_true.mp hex
  refine ⟨?_, ?_, ?_, ?_, ?_⟩
  · intro hq0 hsome
    subst hq0
    refine ⟨{ st with cartItems :=
        st.cartItems.filter (fun c => !(c.userId == u && c.recordId == r)) },
      ?_, rfl, rfl⟩
    simp only [updateCart]
    rw [if_neg (by omega), if_neg (by omega), if_pos trivial,
      if_neg (by simp only [beq_iff_eq]; exact hfilterlen hsome)]
  · intro hq0 habs
    subst hq0
    have hall := all_false_of_find?_eq_none habs
    have hid : st.cartItems.filter (fun c => !(c.userId == u && c.recordId == r)) =
        st.cartItems :=
      List.filter_eq_self.mpr (fun c hc => by simp [hall c hc])
    simp only [updateCart]
    rw [if_neg (by omega), if_neg (by omega), if_pos trivial,
      if_pos (by rw [hid]; exact beq_self_eq_true _)]
  · intro hqpos hsome hex
    obtain ⟨rec, hfound⟩ := hfindrec hex
    have hany : st.cartItems.any (fun c => c.userId == u && c.recordId == r) = true := by
      rw [List.any_eq_true]
      obtain ⟨c, hc, hpc⟩ := List.find?_isSome.mp hsome
      exact ⟨c, hc, hpc⟩
    refine ⟨{ st with cartItems := st.cartItems.map (fun c =>
        if c.userId == u && c.recordId == r then { c with quantity := q } else c) },
      ?_, rfl, rfl, ?_, ?_⟩
    · simp only [updateCart, hfound]
      rw [if_neg (by omega), if_neg (by omega), if_neg (by omega), if_pos hany]
    · intro c hc hpc
      obtain ⟨c0, hc0, rfl⟩ := List.mem_map.mp hc
      by_cases h0 : (c0.userId == u && c0.recordId == r) = true
      · simp [h0]
      · rw [if_neg h0] at hpc
        exact absurd hpc h0
    · rw [cartFind, List.find?_isSome]
      obtain ⟨c, hc, hpc⟩ := List.find?_isSome.mp hsome
      exact ⟨_, List.mem_map.mpr ⟨c, hc, rfl⟩, by simp [hpc]⟩
  · intro hqpos habs hex
    obtain ⟨rec, hfound⟩ := hfindrec hex
    have hall := all_false_of_find?_eq_none habs
    have hany : st.cartItems.any (fun c => c.userId == u && c.recordId == r) = false := by
      rw [List.any_eq_false]
      intro c hc
      simp [hall c hc]
    simp only [updateCart, hfound]
    rw [if_neg (by omega), if_neg (by omega), if_neg (by omega),
      if_neg (by simp [hany])]
  · intro hqpos hnex
    have hnone : findRecord st r = none := by
      rw [findRecord, List.find?_eq_none]
      intro x hx
      exact List.any_eq_false.mp
        (show st.records.any (fun x => x.id == r) = false from hnex) x hx
    simp only [updateCart, hnone]
    rw [if_neg (by omega), if_neg (by omega), if_neg (by omega)]

/-- A state whose cart holds the row `(user 7, record 1, quantity 2)` for the
sample record, which has stock 0. -/
def sampleCartState : DBState :=
  { initialState with records := [sampleRecord], cartItems := [⟨7, 1, 2⟩] }

/-- Witness for C4: on the sample cart, `Set(7, 1, 5)` overwrites the stored
quantity 2 with 5. -/
theorem updateCart_set_semantics_witness :
    ∃ st', updateCart sampleCartState 7 1 5 = .ok st' ∧
      st'.records = sampleCartState.records ∧
      st'.cartItems = sampleCartState.cartItems.map (fun c =>
        if c.userId == 7 && c.recordId == 1 then { c with quantity := 5 } else c) ∧
      (∀ c ∈ st'.cartItems, (c.userId == 7 && c.recordId == 1) = true →
        c.quantity = 5) ∧
      (cartFind st'.cartItems 7 1).isSome = true :=
  (updateCart_set_semantics sampleCartState 7 1 5 (by decide) (by decide)).2.2.1
    (by decide) (by decide) (by decide)

/-! ## C10 -/

/-- C10: cart operations never consult or modify a record's stock.  `Add`
succeeds for every existing record whatever its stock (0 included) and
whatever the requested quantity ≥ 1; `Set` with a positive quantity succeeds
on a present row whatever the stock; and every successful cart mutation
leaves the records table — every field of every row — unchanged (tracks and
associations too). -/
theorem cartOps_ignore_stock (st : DBState) (u r q : Int)
    (hr : 0 < r) (hq : 1 ≤ q) :
    (recordExists st r = true →
      ∃ st', addToCart st u r q = .ok st' ∧ st'.records = st.records ∧
        st'.tracks = st.tracks ∧ st'.recordTracks = st.recordTracks) ∧
    (recordExists st r = true → (cartFind st.cartItems u r).isSome = true →
      ∃ st', updateCart st u r q = .ok st' ∧ st'.records = st.records ∧
        st'.tracks = st.tracks ∧ st'.recordTracks = st.recordTracks) ∧
    (∀ st', addToCart st u r q = .ok st' → st'.records = st.records) ∧
    (∀ st', updateCart st u r q = .ok st' → st'.records = st.records) ∧
    (∀ st', removeFromCart st u r = .ok st' → st'.records = st.records) := by
  refine ⟨?_, ?_, ?_, ?_, ?_⟩
  · intro hex
    rw [addToCart, if_neg (by omega), if_neg (by simp [hex])]
    by_cases hmem : st.cartItems.any (fun c => c.userId == u && c.recordId == r) = true
    · rw [if_pos hmem]
      exact ⟨_, rfl, rfl, rfl, rfl⟩
    · rw [if_neg hmem]
      exact ⟨_, rfl, rfl, rfl, rfl⟩
  · intro hex hsome
    have : (findRecord st r).isSome = true := by
      rw [findRecord, List.find?_isSome]
      exact List.any_eq_true.mp hex
    obtain ⟨rec, hfound⟩ := Option.isSome_iff_exists.mp this
    have hany : st.cartItems.any (fun c => c.userId == u && c.recordId == r) = true := by
      rw [List.any_eq_true]
      obtain ⟨c, hc, hpc⟩ := List.find?_isSome.mp hsome
      exact ⟨c, hc, hpc⟩
    simp only [updateCart, hfound]
    rw [if_neg (by omega), if_neg (by omega), if_neg (by omega), if_pos hany]
    exact ⟨_, rfl, rfl, rfl, rfl⟩
  · intro st' h
    rw [addToCart] at h
    split at h
    · exact Except.noConfusion h
    · split at h
      · exact Except.noConfusion h
      · split at h
        · cases h
          rfl
        · cases h
          rfl
  · intro st' h
    rw [updateCart] at h
    split at h
    · exact Except.noConfusion h
    · split at h
      · exact Except.noConfusion h
      · split at h
        · dsimp only at h
          split at h
          · exact Except.noConfusion h
          · cases h
            rfl
        · split at h
          · exact Except.noConfusion h
          · split at h
            · cases h
              rfl
            · exact Except.noConfusion h
  · intro st' h
    rw [removeFromCart] at h
    split at h
    · exact Except.noConfusion h
    · dsimp only at h
      split at h
      · exact Except.noConfusion h
      · cases h
        rfl

/-- Witness for C10: record 1 has stock 0, yet adding quantity 99 succeeds
and leaves the records table untouched. -/
theorem cartOps_ignore_stock_witness :
    ∃ st', addToCart sampleCartState 7 1 99 = .ok st' ∧
      st'.records = sampleCartState.records ∧
      st'.tracks = sampleCartState.tracks ∧
      st'.recordTracks = sampleCartState.recordTracks :=
  (cartOps_ignore_stock sampleCartState 7 1 99 (by decide) (by decide)).1 (by decide)

/-! ## C3 -/

/-- C3: whenever `GetRecordsHandler` returns a result, it contains exactly
the fetched records — none dropped, none reordered, no field changed — and
every returned record carries a non-nil `Tracks` field, which is the empty
list when the record has no linked track. -/
theorem getRecords_preserves_records (st : DBState) (out : List RecordOut)
    (h : getRecords st = .ok out) :
    out.map (·.toRecordRow) = st.records ∧
    (∀ r ∈ out, r.tracks.isSome = true) ∧
    (∀ r ∈ out, linkedTrackIds (linksFor st (st.records.map (·.id))) r.id = [] →
      r.tracks = some []) := by
  rw [getRecords] at h
  split at h
  · rename_i hlen
    cases h
    have hz : st.records = [] := List.length_eq_zero.mp (by simpa using hlen)
    refine ⟨?_, ?_, ?_⟩
    · simp [hz]
    · simp
    · simp
  · dsimp only at h
    split at h
    · cases h
      refine ⟨?_, ?_, ?_⟩
      · rw [List.map_map]
        exact List.map_id st.records
      · intro r hr
        obtain ⟨r0, _, rfl⟩ := List.mem_map.mp hr
        rfl
      · intro r hr _
        obtain ⟨r0, _, rfl⟩ := List.mem_map.mp hr
        rfl
    · split at h
      · exact Except.noConfusion h
      · cases h
        refine ⟨?_, ?_, ?_⟩
        · rw [attachTracks, List.map_map]
          exact List.map_id st.records
        · intro r hr
          obtain ⟨r0, _, rfl⟩ := List.mem_map.mp hr
          rfl
        · intro r hr hempty
          obtain ⟨r0, _, rfl⟩ := List.mem_map.mp hr
          simp only [attachTracks]
          rw [show linkedTrackIds (linksFor st (st.records.map (·.id))) r0.id = []
            from hempty]
          rfl

/-- Witness for C3 on the sample state (one record, no links): the response
is that record with the empty track list. -/
theorem getRecords_preserves_records_witness :
    ([({ toRecordRow := sampleRecord, tracks := some [] } : RecordOut)].map
        (·.toRecordRow) = sampleState.records) ∧
    (∀ r ∈ [({ toRecordRow := sampleRecord, tracks := some [] } : RecordOut)],
      r.tracks.isSome = true) ∧
    (∀ r ∈ [({ toRecordRow := sampleRecord, tracks := some [] } : RecordOut)],
      linkedTrackIds (linksFor sampleState (sampleState.records.map (·.id))) r.id = [] →
      r.tracks = some []) :=
  getRecords_preserves_records sampleState
    [({ toRecordRow := sampleRecord, tracks := some [] } : RecordOut)] (by decide)

/-! ## C2 -/

/-- A concrete `ensembles` row. -/
def sampleEnsemble : EnsembleRow := { id := 1, name := "Quartet A", type := "quartet" }

/-- A concrete ensemble-owned `tracks` row. -/
def sampleTrack : TrackRow :=
  { id := 1, name := "Intro", duration := 120, musicianId := none, ensembleId := some 1 }

/-- A state where the sample record links the sample track. -/
def linkedState : DBState :=
  { initialState with
    ensembles := [sampleEnsemble]
    tracks := [sampleTrack]
    records := [sampleRecord]
    recordTracks := [(1, 1)] }

/-- Characters of the `",?"` repetitions. -/
theorem mem_stringRepeat_comma :
    ∀ n, ∀ c ∈ (stringRepeat ",?" n).data, c = ',' ∨ c = '?' := by
  intro n
  induction n with
  | zero =>
    intro c hc
    rw [show stringRepeat ",?" 0 = "" from rfl] at hc
    simp [show ("" : String).data = [] from rfl] at hc
  | succ k ih =>
    intro c hc
    rw [stringRepeat, String.data_append] at hc
    rcases List.mem_append.mp hc with h | h
    · rw [show (",?").data = [',', '?'] from rfl] at h
      simpa using h
    · exact ih c h

/-- Every character of a well-formed placeholder clause is one of
`(`, `?`, `,`, `)`. -/
theorem inClause_chars :
    ∀ n, ∀ c ∈ (inClause n).data, c = '(' ∨ c = '?' ∨ c = ',' ∨ c = ')' := by
  intro n c hc
  rw [inClause, String.data_append, String.data_append] at hc
  rcases List.mem_append.mp hc with h | h
  · rcases List.mem_append.mp h with h | h
    · rw [show ("(?").data = ['(', '?'] from rfl] at h
      simp only [List.mem_cons, List.not_mem_nil, or_false] at h
      rcases h with h | h
      · exact Or.inl h
      · exact Or.inr (Or.inl h)
    · rcases mem_stringRepeat_comma (n - 1) c h with h | h
      · exact Or.inr (Or.inr (Or.inl h))
      · exact Or.inr (Or.inl h)
  · rw [show (")").data = [')'] from rfl] at h
    simp only [List.mem_cons, List.not_mem_nil, or_false] at h
    exact Or.inr (Or.inr (Or.inr h))

/-- A string containing the letter `s` is no placeholder clause. -/
theorem ne_inClause_of_mem_s (s : String) (hs : 's' ∈ s.data) :
    ∀ n, (s == inClause n) = false := by
  intro n
  rw [beq_eq_false_iff_ne]
  intro heq
  rw [heq] at hs
  rcases inClause_chars n 's' hs with h | h | h | h <;> exact absurd h (by decide)

/-- C2 fails on the code: the step-3 tracks query of `GetRecordsHandler` is a
raw string literal whose `IN`-clause is never the well-formed placeholder
list (for any argument count) — the engine rejects it, so on a state with one
record linked to one track the whole response is replaced by the storage
error instead of a partial result.  The cart variant of the query has the
same defect. -/
theorem getRecords_step3_storage_error :
    getRecords linkedState = .error .storage ∧
    (∀ n, (brokenTracksInClause == inClause n) = false) ∧
    (∀ n, (brokenCartTracksInClause == inClause n) = false) := by
  refine ⟨by decide, ?_, ?_⟩
  · exact ne_inClause_of_mem_s brokenTracksInClause (by decide)
  · exact ne_inClause_of_mem_s brokenCartTracksInClause (by decide)

/-! ## C5 -/

/-- A state whose cart references record 5 although the `records` table no
longer holds it (out-of-band delete). -/
def orphanState : DBState :=
  { initialState with cartItems := [⟨1, 5, 2⟩] }

/-- C5 fails on the code: `GetCartHandler` does not omit a cart row whose
record has been deleted — the row stays in the response with a nil `Record`
pointer (a degraded form).  At the orphan state the claim demands the empty
list; the handler returns the row. -/
theorem getCart_keeps_orphan_row :
    getCart orphanState 1 = .ok [⟨1, 5, 2, none⟩] ∧
    ¬(getCart orphanState 1 = .ok []) := by decide

/-- Projections of an attached cart item are those of the incoming item. -/
theorem attachCart_proj (items : List CartItemOut) (rmap : Int → Option RecordRow)
    (links : List (Int × Int)) (tmap : Int → Option Track) :
    (attachCart items rmap links tmap).map (fun it => (it.userId, it.recordId, it.quantity)) =
      items.map (fun it => (it.userId, it.recordId, it.quantity)) := by
  rw [attachCart, List.map_map]
  apply List.map_congr_left
  intro it _
  cases hr : rmap it.recordId <;> simp [hr]

/-- Every item of an attached cart list comes from an input item with the
same key fields; when the record lookup missed, its `record` field is nil. -/
theorem mem_attachCart (items : List CartItemOut) (rmap : Int → Option RecordRow)
    (links : List (Int × Int)) (tmap : Int → Option Track) (it : CartItemOut)
    (hit : it ∈ attachCart items rmap links tmap) :
    ∃ it0 ∈ items, it.userId = it0.userId ∧ it.recordId = it0.recordId ∧
      it.quantity = it0.quantity ∧ (rmap it0.recordId = none → it.record = none) := by
  rw [attachCart] at hit
  obtain ⟨it0, h0, rfl⟩ := List.mem_map.mp hit
  cases hr : rmap it0.recordId <;> exact ⟨it0, h0, by simp [hr], by simp [hr],
    by simp [hr], by simp [hr]⟩

/-- A record id absent from the store is absent from any filtered fetch. -/
theorem recordsMapOf_filter_none (st : DBState) (p : RecordRow → Bool) (rid : Int)
    (hnex : recordExists st rid = false) :
    recordsMapOf (st.records.filter p) rid = none := by
  rw [recordsMapOf, List.find?_eq_none]
  intro x hx
  exact List.any_eq_false.mp
    (show st.records.any (fun r => r.id == rid) = false from hnex) x
    (List.mem_filter.mp hx).1

/-- C5 amended: whenever `GetCartHandler` returns a result, it holds exactly
the user's cart rows, in order and with their quantities, and every row whose
record no longer exists is retained with a nil `Record` pointer (it is logged,
not omitted and not an error). -/
theorem getCart_orphan_amended (st : DBState) (u : Int) (out : List CartItemOut)
    (h : getCart st u = .ok out) :
    out.map (fun it => (it.userId, it.recordId, it.quantity)) =
      (st.cartItems.filter (fun c => c.userId == u)).map
        (fun c => (c.userId, c.recordId, c.quantity)) ∧
    ∀ it ∈ out, recordExists st it.recordId = false → it.record = none := by
  rw [getCart] at h
  split at h
  · cases h
    refine ⟨by rw [List.map_map]; rfl, ?_⟩
    intro it hit _
    obtain ⟨c, _, rfl⟩ := List.mem_map.mp hit
    rfl
  · dsimp only at h
    split at h
    · cases h
      refine ⟨by rw [List.map_map]; rfl, ?_⟩
      intro it hit _
      obtain ⟨c, _, rfl⟩ := List.mem_map.mp hit
      rfl
    · split at h
      · cases h
        refine ⟨by rw [attachCart_proj, List.map_map]; rfl, ?_⟩
        intro it hit hnex
        obtain ⟨it0, _, _, hrid, _, hrec⟩ := mem_attachCart _ _ _ _ it hit
        exact hrec (recordsMapOf_filter_none st _ it0.recordId (hrid ▸ hnex))
      · split at h
        · exact Except.noConfusion h
        · cases h
          refine ⟨by rw [attachCart_proj, List.map_map]; rfl, ?_⟩
          intro it hit hnex
          obtain ⟨it0, _, _, hrid, _, hrec⟩ := mem_attachCart _ _ _ _ it hit
          exact hrec (recordsMapOf_filter_none st _ it0.recordId (hrid ▸ hnex))

/-- Witness for the amended C5 at the orphan state. -/
theorem getCart_orphan_amended_witness :
    ([({ userId := 1, recordId := 5, quantity := 2, record := none } : CartItemOut)].map
        (fun it => (it.userId, it.recordId, it.quantity)) =
      (orphanState.cartItems.filter (fun c => c.userId == 1)).map
        (fun c => (c.userId, c.recordId, c.quantity))) ∧
    ∀ it ∈ [({ userId := 1, recordId := 5, quantity := 2, record := none } : CartItemOut)],
      recordExists orphanState it.recordId = false → it.record = none :=
  getCart_orphan_amended orphanState 1 [⟨1, 5, 2, none⟩] (by decide)

/-! ## C8 -/

/-- A joined row whose musician row exists but carries empty first and last
names (both columns present, both the empty string). -/
def emptyNamesRow : JoinedTrackRow :=
  { id := 1, name := "Intro", duration := 120, musicianId := some 1, ensembleId := none
    musicianFirstName := some "", musicianLastName := some "", ensembleName := none }

/-- C8 fails on the code as stated: when both joined name columns are present
but empty, the display name is the empty trimmed concatenation, not the fixed
placeholder (the scan falls back only when both columns are NULL). -/
theorem scanTrack_empty_names_no_placeholder :
    (scanTrack emptyNamesRow).musicianName = "" ∧
    ¬((scanTrack emptyNamesRow).musicianName = "Unknown Musician") := by decide

/-- C8 amended: with a musician reference the display name is the fixed
placeholder exactly when both joined name columns are NULL (the owner row is
absent from the left join); when at least one column is present it is the
trimmed concatenation of the two column values (an absent half contributing
the empty string).  With an ensemble reference the stored name is used as-is
when present, the placeholder only when the joined name is NULL. -/
theorem scanTrack_display_names (row : JoinedTrackRow) :
    (row.musicianId.isSome = true →
      (scanTrack row).musicianId = row.musicianId ∧
      (row.musicianFirstName = none → row.musicianLastName = none →
        (scanTrack row).musicianName = "Unknown Musician") ∧
      ((row.musicianFirstName.isSome || row.musicianLastName.isSome) = true →
        (scanTrack row).musicianName =
          trimSpace (row.musicianFirstName.getD "" ++ " " ++
            row.musicianLastName.getD ""))) ∧
    (row.ensembleId.isSome = true →
      (scanTrack row).ensembleId = row.ensembleId ∧
      (row.ensembleName = none → (scanTrack row).ensembleName = "Unknown Ensemble") ∧
      (∀ s, row.ensembleName = some s → (scanTrack row).ensembleName = s)) := by
  obtain ⟨tid, tname, tdur, mid, eid, f, l, en⟩ := row
  constructor
  · intro hm
    obtain ⟨m, rfl⟩ := Option.isSome_iff_exists.mp hm
    refine ⟨?_, ?_, ?_⟩
    · cases eid <;> rfl
    · rintro rfl rfl
      cases eid <;> simp [scanTrack]
    · intro hfl
      cases eid <;> simp [scanTrack, hfl]
  · intro he
    obtain ⟨e, rfl⟩ := Option.isSome_iff_exists.mp he
    refine ⟨?_, ?_, ?_⟩
    · cases mid <;> rfl
    · rintro rfl
      cases mid <;> simp [scanTrack]
    · rintro s rfl
      cases mid <;> simp [scanTrack]

/-- A joined row with a musician named John Smith. -/
def namedMusicianRow : JoinedTrackRow :=
  { id := 2, name := "Solo", duration := 90, musicianId := some 3, ensembleId := none
    musicianFirstName := some "John", musicianLastName := some "Smith"
    ensembleName := none }

/-- Witness for the amended C8: John Smith's track displays the trimmed
concatenation of the two names. -/
theorem scanTrack_display_names_witness :
    (scanTrack namedMusicianRow).musicianName =
      trimSpace ((namedMusicianRow.musicianFirstName).getD "" ++ " " ++
        (namedMusicianRow.musicianLastName).getD "") :=
  ((scanTrack_display_names namedMusicianRow).1 (by decide)).2.2 (by decide)

/-! ## C7 -/

/-- Track inserts with an exclusively-owned owner pair preserve the
ownership-exclusivity invariant. -/
theorem insertOwnedTracks_xor (o : Nat → Bool) (mid eid : Option Int)
    (hx : (mid.isSome ^^ eid.isSome) = true) :
    ∀ (ts : List AddTrackRequest) (k : Nat) (st st' : DBState) (k' : Nat),
      insertOwnedTracks o mid eid ts k st = .ok (st', k') →
      tracksXorInv st = true → tracksXorInv st' = true := by
  intro ts
  induction ts with
  | nil =>
    intro k st st' k' h hinv
    rw [insertOwnedTracks] at h
    cases h
    exact hinv
  | cons t ts ih =>
    intro k st st' k' h hinv
    rw [insertOwnedTracks] at h
    split at h
    · exact ih _ _ _ _ h hinv
    · split at h
      · exact Except.noConfusion h
      · refine ih _ _ _ _ h ?_
        rw [tracksXorInv] at hinv ⊢
        rw [List.all_append, hinv]
        simp [trackOwnerXor, hx]

/-- C7: track-ownership exclusivity.  The fresh schema satisfies it
(vacuously); both track-creating admin writes preserve it — musician tracks
are inserted with `ensemble_id = NULL`, ensemble tracks with
`musician_id = NULL` — and the aggregation scan mirrors whichever owner
reference is set and never fills both display-name fields for a track whose
persisted row satisfies the invariant. -/
theorem trackOwnership_exclusive :
    tracksXorInv initialState = true ∧
    (∀ (o : Nat → Bool) (st : DBState) (req : AddMusicianRequest),
      tracksXorInv st = true →
      tracksXorInv (txFinalState st (addMusician o st req)) = true) ∧
    (∀ (o : Nat → Bool) (st : DBState) (req : AddEnsembleRequest),
      tracksXorInv st = true →
      tracksXorInv (txFinalState st (addEnsemble o st req)) = true) ∧
    (∀ row : JoinedTrackRow, (row.musicianId.isSome ^^ row.ensembleId.isSome) = true →
      (scanTrack row).musicianId = row.musicianId ∧
      (scanTrack row).ensembleId = row.ensembleId ∧
      ((scanTrack row).musicianName = "" ∨ (scanTrack row).ensembleName = "")) := by
  refine ⟨rfl, ?_, ?_, ?_⟩
  · intro o st req hinv
    rw [addMusician]
    split
    · exact hinv
    · split
      · exact hinv
      · dsimp only
        split
        · exact hinv
        · rename_i st2k heq
          split
          · exact hinv
          · rw [txFinalState]
            simp only [if_pos rfl]
            exact insertOwnedTracks_xor o (some st.nextMusicianId) none (by simp)
              req.tracks 1 _ _ _ heq hinv
  · intro o st req hinv
    rw [addEnsemble]
    split
    · exact hinv
    · split
      · exact hinv
      · split
        · exact hinv
        · dsimp only
          split
          · exact hinv
          · rename_i st2k heq
            split
            · exact hinv
            · rw [txFinalState]
              simp only [if_pos rfl]
              exact insertOwnedTracks_xor o none (some st.nextEnsembleId) (by simp)
                req.tracks 1 _ _ _ heq hinv
  · intro row hx
    obtain ⟨tid, tname, tdur, mid, eid, f, l, en⟩ := row
    cases mid with
    | none =>
      cases eid with
      | none => simp at hx
      | some e => exact ⟨rfl, rfl, Or.inl rfl⟩
    | some m =>
      cases eid with
      | none => exact ⟨rfl, rfl, Or.inr rfl⟩
      | some e => simp at hx

/-- Witness for C7: adding a musician with one personal track to the sample
state keeps the invariant. -/
theorem trackOwnership_exclusive_witness :
    tracksXorInv (txFinalState sampleState
      (addMusician (fun _ => false) sampleState
        ⟨"John", "Smith", "guitarist", none, [⟨"Solo", 90⟩]⟩)) = true :=
  trackOwnership_exclusive.2.1 (fun _ => false) sampleState
    ⟨"John", "Smith", "guitarist", none, [⟨"Solo", 90⟩]⟩ (by decide)

/-! ## C6 -/

/-- C6: all-or-nothing admin writes.  Whenever `AddMusicianHandler`,
`AddEnsembleHandler` or `AddRecordHandler` (the record insert together with
its track links) reports an error — a storage failure on any statement of
the sequence, or the uniqueness conflict on the first ensemble insert — the
transaction never reaches a successful commit, so the durable database state
is unchanged by the request. -/
theorem adminWrites_allOrNothing (o : Nat → Bool) (st : DBState)
    (reqE : AddEnsembleRequest) (reqM : AddMusicianRequest)
    (reqR : AddRecordRequest) :
    (∀ e, (addEnsemble o st reqE).response = .error e →
      txFinalState st (addEnsemble o st reqE) = st) ∧
    (∀ e, (addMusician o st reqM).response = .error e →
      txFinalState st (addMusician o st reqM) = st) ∧
    (∀ e, (addRecord o st reqR).response = .error e →
      txFinalState st (addRecord o st reqR) = st) ∧
    ((reqE.name == "") = false → o 0 = false →
      st.ensembles.any (fun x => x.name == reqE.name) = true →
      (addEnsemble o st reqE).response = .error .conflict ∧
      txFinalState st (addEnsemble o st reqE) = st) := by
  refine ⟨?_, ?_, ?_, ?_⟩
  · intro e he
    rw [addEnsemble] at he ⊢
    revert he
    split
    · intro _
      rfl
    · split
      · intro _
        rfl
      · split
        · intro _
          rfl
        · dsimp only
          split
          · intro _
            rfl
          · split
            · intro _
              rfl
            · intro he
              exact Except.noConfusion he
  · intro e he
    rw [addMusician] at he ⊢
    revert he
    split
    · intro _
      rfl
    · split
      · intro _
        rfl
      · dsimp only
        split
        · intro _
          rfl
        · split
          · intro _
            rfl
          · intro he
            exact Except.noConfusion he
  · intro e he
    rw [addRecord] at he ⊢
    revert he
    split
    · intro _
      rfl
    · split
      · intro _
        rfl
      · split
        · intro _
          rfl
        · dsimp only
          split
          · intro _
            rfl
          · split
            · intro _
              rfl
            · intro he
              exact Except.noConfusion he
  · intro hname hfail hdup
    rw [addEnsemble]
    rw [if_neg (by simp [hname] : ¬(reqE.name == "") = true),
      if_neg (by simp [hfail] : ¬(o 0) = true), if_pos hdup]
    exact ⟨rfl, rfl⟩

/-- A concrete state already holding the sample ensemble. -/
def ensembleState : DBState :=
  { initialState with ensembles := [sampleEnsemble], nextEnsembleId := 2 }

/-- Witness for C6: re-creating `"Quartet A"` hits the uniqueness conflict
and leaves the database unchanged, and a record request whose link insert
fails mid-transaction also leaves the database unchanged. -/
theorem adminWrites_allOrNothing_witness :
    ((addEnsemble (fun _ => false) ensembleState ⟨"Quartet A", "quartet", []⟩).response
        = .error .conflict ∧
      txFinalState ensembleState
        (addEnsemble (fun _ => false) ensembleState ⟨"Quartet A", "quartet", []⟩)
          = ensembleState) ∧
    txFinalState linkedState
      (addRecord (fun k => k == 1) linkedState
        ⟨"Best Of", "EMI", "", 0, 0, "2024-02-02", 3, [1]⟩)
        = linkedState :=
  ⟨(adminWrites_allOrNothing (fun _ => false) ensembleState
      ⟨"Quartet A", "quartet", []⟩ ⟨"", "", "", none, []⟩
      ⟨"", "", "", 0, 0, "", 0, []⟩).2.2.2
      (by decide) (by decide) (by decide),
    (adminWrites_allOrNothing (fun k => k == 1) linkedState
      ⟨"Quartet A", "quartet", []⟩ ⟨"", "", "", none, []⟩
      ⟨"Best Of", "EMI", "", 0, 0, "2024-02-02", 3, [1]⟩).2.2.1
      .storage (by decide)⟩

/-! ## C9 -/

/-- C9: deleting a record removes every cart row and every record-track
association row that references it, while the `tracks`, `musicians` and
`ensembles` tables are untouched and every previously stored track is still
resolvable by direct id lookup; deleting a musician or ensemble row, by
contrast, deletes every track they own. -/
theorem deleteRecord_cascades (st : DBState) (rid : Int) (st' : DBState)
    (h : deleteRecord st rid = .ok st') :
    st'.cartItems.all (fun c => !(c.recordId == rid)) = true ∧
    st'.recordTracks.all (fun p => !(p.1 == rid)) = true ∧
    st'.tracks = st.tracks ∧
    st'.musicians = st.musicians ∧
    st'.ensembles = st.ensembles ∧
    (∀ t ∈ st.tracks, (trackLookup st' t.id).isSome = true) ∧
    (∀ mid, (deleteMusicianRow st mid).tracks.all
      (fun t => !(t.musicianId == some mid)) = true) ∧
    (∀ eid, (deleteEnsembleRow st eid).tracks.all
      (fun t => !(t.ensembleId == some eid)) = true) := by
  rw [deleteRecord] at h
  split at h
  · exact Except.noConfusion h
  · dsimp only at h
    split at h
    · exact Except.noConfusion h
    · cases h
      refine ⟨?_, ?_, rfl, rfl, rfl, ?_, ?_, ?_⟩
      · rw [List.all_eq_true]
        intro c hc
        exact (List.mem_filter.mp hc).2
      · rw [List.all_eq_true]
        intro p hp
        exact (List.mem_filter.mp hp).2
      · intro t ht
        rw [trackLookup, List.find?_isSome]
        exact ⟨t, ht, by simp⟩
      · intro mid
        rw [deleteMusicianRow, List.all_eq_true]
        intro t htm
        exact (List.mem_filter.mp htm).2
      · intro eid
        rw [deleteEnsembleRow, List.all_eq_true]
        intro t hte
        exact (List.mem_filter.mp hte).2

/-- A state with the linked sample data plus a cart row for the record. -/
def cascadeState : DBState :=
  { initialState with
    ensembles := [sampleEnsemble]
    tracks := [sampleTrack]
    records := [sampleRecord]
    recordTracks := [(1, 1)]
    cartItems := [⟨7, 1, 2⟩] }

/-- The state left by deleting record 1 from `cascadeState`. -/
def cascadeStateAfter : DBState :=
  { initialState with ensembles := [sampleEnsemble], tracks := [sampleTrack] }

/-- Witness for C9: deleting record 1 empties its cart and association rows
but keeps the track resolvable. -/
theorem deleteRecord_cascades_witness :
    cascadeStateAfter.cartItems.all (fun c => !(c.recordId == 1)) = true ∧
    cascadeStateAfter.recordTracks.all (fun p => !(p.1 == 1)) = true ∧
    cascadeStateAfter.tracks = cascadeState.tracks ∧
    cascadeStateAfter.musicians = cascadeState.musicians ∧
    cascadeStateAfter.ensembles = cascadeState.ensembles ∧
    (∀ t ∈ cascadeState.tracks, (trackLookup cascadeStateAfter t.id).isSome = true) ∧
    (∀ mid, (deleteMusicianRow cascadeState mid).tracks.all
      (fun t => !(t.musicianId == some mid)) = true) ∧
    (∀ eid, (deleteEnsembleRow cascadeState eid).tracks.all
      (fun t => !(t.ensembleId == some eid)) = true) :=
  deleteRecord_cascades cascadeState 1 cascadeStateAfter (by decide)

end RecordStore
